import Mathlib

/-!
Shallow embedding of the Bug Bounty Platform API (Express/Prisma) core:
data model (prisma migration), authentication middleware, role gate,
program and report controllers, route mounting, and the rate limiter
configuration, together with theorems settling the specification claims.
-/

namespace BugBounty

/-! ### Data model, from the prisma migration -/

inductive Role
  | RESEARCHER
  | COMPANY
  | ADMIN
deriving DecidableEq, Repr

inductive Severity
  | LOW
  | MEDIUM
  | HIGH
  | CRITICAL
deriving DecidableEq, Repr

inductive Status
  | OPEN
  | IN_REVIEW
  | RESOLVED
  | REJECTED
deriving DecidableEq, Repr

structure User where
  id : Nat
  email : String
  name : String
  passwordHash : String
  role : Role
deriving DecidableEq, Repr

structure Program where
  id : Nat
  name : String
  description : String
  scope : String
  rewardMin : Int
  rewardMax : Int
  companyId : Nat
deriving DecidableEq, Repr

structure Report where
  id : Nat
  title : String
  description : String
  severity : Severity
  status : Status
  programId : Nat
  researcherId : Nat
deriving DecidableEq, Repr

/-- The persistence store: lists of rows plus a fresh-id counter. -/
structure DB where
  users : List User
  programs : List Program
  reports : List Report
  nextId : Nat
deriving DecidableEq, Repr

def DB.findUserById (db : DB) (id : Nat) : Option User :=
  db.users.find? (fun u => u.id == id)

def DB.findUserByEmail (db : DB) (email : String) : Option User :=
  db.users.find? (fun u => u.email == email)

def DB.findProgram (db : DB) (id : Nat) : Option Program :=
  db.programs.find? (fun p => p.id == id)

def DB.findReport (db : DB) (id : Nat) : Option Report :=
  db.reports.find? (fun r => r.id == id)

/-! ### HTTP responses -/

/-- A handler response: success with a body, or an error with a message,
each carrying the HTTP status code the controller sets. -/
inductive HResp (α : Type)
  | ok (status : Nat) (body : α)
  | err (status : Nat) (error : String)
deriving DecidableEq, Repr

def HResp.statusCode : HResp α → Nat
  | .ok s _ => s
  | .err s _ => s

/-! ### JavaScript truthiness for request body fields

A missing field is `undefined` and falsy; an empty string is falsy; the
number 0 is falsy. -/

def truthyStr : Option String → Bool
  | none => false
  | some s => !(s == "")

def truthyInt : Option Int → Bool
  | none => false
  | some n => !(n == 0)

/-! ### Authentication middleware (src/middleware/auth.js) -/

/-- The claims embedded in a JWT by generateToken: id and email. -/
structure TokenClaims where
  id : Nat
  email : String
deriving DecidableEq, Repr

/-- Splits a character list on every occurrence of a separator, like the
JavaScript String.split with a one-character separator. -/
def splitOnChar (sep : Char) : List Char → List (List Char)
  | [] => [[]]
  | c :: cs =>
    match splitOnChar sep cs with
    | [] => [[]]
    | w :: ws => if c = sep then [] :: w :: ws else (c :: w) :: ws

/-- Models the express middleware token extraction: the authorization
header is split on spaces and the piece at index 1 is the token. -/
def bearerToken (authHeader : Option String) : Option String :=
  authHeader.bind (fun h => ((splitOnChar ' ' h.data).map (fun cs => String.mk cs)).get? 1)

inductive AuthResult
  | failed (status : Nat) (error : String)
  | ok (user : User)
deriving DecidableEq, Repr

/-- The authenticate middleware: extract the bearer token (missing or
falsy token rejects), verify it (verification failure rejects), load the
user by the id claim (missing user rejects), else attach the full user
record. The verifier is passed as a parameter; none models jwt.verify
throwing or returning a falsy value. -/
def authenticate (verify : String → Option TokenClaims) (db : DB)
    (authHeader : Option String) : AuthResult :=
  match bearerToken authHeader with
  | none => .failed 401 "No token provided, authorization denied"
  | some t =>
    if t == "" then .failed 401 "No token provided, authorization denied"
    else
      match verify t with
      | none => .failed 401 "Invalid token"
      | some decoded =>
        match db.findUserById decoded.id with
        | none => .failed 401 "User not found"
        | some user => .ok user

/-- The authorizeRole middleware factory: the request passes iff the
authenticated user role is in the allow-list. -/
def authorizeRole (allowedRoles : List Role) (user : User) : Bool :=
  allowedRoles.contains user.role

/-- The 403 body produced by authorizeRole on a role mismatch. -/
def roleGateError : String := "You do not have permission to perform this action"

/-! ### User serialization (authController)

The user row as a JSON object, key by key, mirroring the prisma record;
the controllers destructure passwordHash out before responding. -/

def Role.asString : Role → String
  | .RESEARCHER => "RESEARCHER"
  | .COMPANY => "COMPANY"
  | .ADMIN => "ADMIN"

/-- The serialized fields of a user row, passwordHash included. -/
def User.fields (u : User) : List (String × String) :=
  [("id", toString u.id), ("email", u.email), ("name", u.name),
   ("passwordHash", u.passwordHash), ("role", u.role.asString)]

/-- Models the rest-destructuring that drops passwordHash from the
serialized user object. -/
def omitPasswordHash (fields : List (String × String)) : List (String × String) :=
  fields.filter (fun kv => !(kv.1 == "passwordHash"))

/-- The body of a successful register or login response. -/
structure AuthSuccess where
  token : String
  user : List (String × String)
deriving DecidableEq, Repr

/-! ### Auth controller (src/controllers/authController.js) -/

structure RegisterBody where
  name : Option String := none
  email : Option String := none
  password : Option String := none
  role : Option Role := none
deriving DecidableEq, Repr

/-- The register handler: validate by truthiness, hash the password,
create the user (the unique email index rejects duplicates with a P2002
translated to 409), return the token and the user without passwordHash.
The hasher and the token signer are passed as parameters. -/
def register (hash : String → String) (sign : User → String)
    (db : DB) (body : RegisterBody) : HResp AuthSuccess × DB :=
  if !truthyStr body.name || !truthyStr body.email || !truthyStr body.password then
    (.err 400 "All fields are required", db)
  else
    let email := body.email.getD ""
    if db.users.any (fun u => u.email == email) then
      (.err 409 "A user with this email already exists", db)
    else
      let user : User :=
        { id := db.nextId, email := email, name := body.name.getD "",
          passwordHash := hash (body.password.getD ""),
          role := body.role.getD .RESEARCHER }
      (.ok 201 { token := sign user, user := omitPasswordHash user.fields },
       { db with users := db.users ++ [user], nextId := db.nextId + 1 })

/-- The login handler: validate by truthiness, look the user up by email,
compare the password against the stored hash, return the token and the
user without passwordHash. -/
def login (compare : String → String → Bool) (sign : User → String)
    (db : DB) (email password : Option String) : HResp AuthSuccess :=
  if !truthyStr email || !truthyStr password then
    .err 400 "All fields are required"
  else
    match db.findUserByEmail (email.getD "") with
    | none => .err 401 "Invalid email or password"
    | some user =>
      if !(compare (password.getD "") user.passwordHash) then
        .err 401 "Invalid email or password"
      else
        .ok 200 { token := sign user, user := omitPasswordHash user.fields }

/-- The me handler: return the authenticated user without passwordHash. -/
def me (user : User) : HResp (List (String × String)) :=
  .ok 200 (omitPasswordHash user.fields)

/-! ### Program controller (src/controllers/programController.js) -/

structure ProgramBody where
  name : Option String := none
  description : Option String := none
  scope : Option String := none
  rewardMin : Option Int := none
  rewardMax : Option Int := none
deriving DecidableEq, Repr

/-- The createProgram handler: all five fields must be truthy, then the
program is created with companyId taken from the authenticated user. -/
def createProgram (db : DB) (user : User) (body : ProgramBody) :
    HResp Program × DB :=
  if !truthyStr body.name || !truthyStr body.description || !truthyStr body.scope
      || !truthyInt body.rewardMin || !truthyInt body.rewardMax then
    (.err 400 "All fields are required", db)
  else
    let program : Program :=
      { id := db.nextId, name := body.name.getD "",
        description := body.description.getD "", scope := body.scope.getD "",
        rewardMin := body.rewardMin.getD 0, rewardMax := body.rewardMax.getD 0,
        companyId := user.id }
    (.ok 201 program,
     { db with programs := db.programs ++ [program], nextId := db.nextId + 1 })

/-- Applies a prisma program update data object to a row: fields present
in the body overwrite, absent (undefined) fields are left untouched.
companyId and id are not in the data object, so they are preserved. -/
def Program.applyBody (body : ProgramBody) (p : Program) : Program :=
  { p with name := body.name.getD p.name,
           description := body.description.getD p.description,
           scope := body.scope.getD p.scope,
           rewardMin := body.rewardMin.getD p.rewardMin,
           rewardMax := body.rewardMax.getD p.rewardMax }

/-- The updateProgram handler: 404 when the id does not resolve, 403 when
the requester does not own the program, else update and return the row. -/
def updateProgram (db : DB) (user : User) (pid : Nat) (body : ProgramBody) :
    HResp Program × DB :=
  match db.findProgram pid with
  | none => (.err 404 "Program not found", db)
  | some program =>
    if program.companyId != user.id then
      (.err 403 "You are not authorized to update this program", db)
    else
      (.ok 200 (Program.applyBody body program),
       { db with programs :=
           db.programs.map (fun p => if p.id == pid then Program.applyBody body p else p) })

/-- The deleteProgram handler: 404 when the id does not resolve, 403 when
the requester does not own the program, else delete. The reports of the
program are removed too, per the ON DELETE CASCADE foreign key. -/
def deleteProgram (db : DB) (user : User) (pid : Nat) : HResp Unit × DB :=
  match db.findProgram pid with
  | none => (.err 404 "Program not found", db)
  | some program =>
    if program.companyId != user.id then
      (.err 403 "You are not authorized to delete this program", db)
    else
      (.ok 204 (),
       { db with programs := db.programs.filter (fun p => !(p.id == pid)),
                 reports := db.reports.filter (fun r => !(r.programId == pid)) })

/-! ### Report controller (src/controllers/reportController.js) -/

structure StatusBody where
  status : Option Status := none
  severity : Option Severity := none
deriving DecidableEq, Repr

/-- The getReportsForProgram handler: 404 when the program does not
resolve; a COMPANY user must own the program (else 403) and sees all its
reports; any other role sees the reports of that program filtered to its
own researcherId. -/
def getReportsForProgram (db : DB) (user : User) (programId : Nat) :
    HResp (List Report) :=
  match db.findProgram programId with
  | none => .err 404 "Program not found"
  | some program =>
    if user.role = .COMPANY then
      if program.companyId != user.id then
        .err 403 "You are not authorized to view reports for this program"
      else
        .ok 200 (db.reports.filter (fun r => r.programId == programId))
    else
      .ok 200 (db.reports.filter
        (fun r => r.programId == programId && r.researcherId == user.id))

/-- Applies a prisma report status update data object to a row: only the
fields present in the body (status, severity) are overwritten. -/
def Report.applyStatusBody (body : StatusBody) (r : Report) : Report :=
  { r with status := body.status.getD r.status,
           severity := body.severity.getD r.severity }

/-- The updateReportStatus handler: 400 when both fields are absent, 404
when the report does not resolve, 403 when the requester is not the
company owning the parent program, else apply the update. A dangling
program foreign key would throw in the handler and be caught as 500. -/
def updateReportStatus (db : DB) (user : User) (rid : Nat) (body : StatusBody) :
    HResp Report × DB :=
  if body.status = none ∧ body.severity = none then
    (.err 400 "Status or severity must be provided", db)
  else
    match db.findReport rid with
    | none => (.err 404 "Report not found", db)
    | some report =>
      match db.findProgram report.programId with
      | none => (.err 500 "Failed to update report", db)
      | some program =>
        if program.companyId != user.id then
          (.err 403 "You are not authorized to update this report", db)
        else
          (.ok 200 (Report.applyStatusBody body report),
           { db with reports :=
               db.reports.map (fun r => if r.id == rid then Report.applyStatusBody body r else r) })

/-! ### Route pipelines (routes/programs.js, routes/reports.js)

Each protected route runs authorizeRole after authenticate; the pipeline
below models the middleware chain for an already-authenticated user. -/

def routePutProgram (db : DB) (user : User) (pid : Nat) (body : ProgramBody) :
    HResp Program × DB :=
  if !(authorizeRole [.COMPANY] user) then (.err 403 roleGateError, db)
  else updateProgram db user pid body

def routeDeleteProgram (db : DB) (user : User) (pid : Nat) : HResp Unit × DB :=
  if !(authorizeRole [.COMPANY] user) then (.err 403 roleGateError, db)
  else deleteProgram db user pid

def routeGetReportsForProgram (db : DB) (user : User) (pid : Nat) :
    HResp (List Report) :=
  if !(authorizeRole [.COMPANY, .RESEARCHER] user) then .err 403 roleGateError
  else getReportsForProgram db user pid

def routePatchReportStatus (db : DB) (user : User) (rid : Nat) (body : StatusBody) :
    HResp Report × DB :=
  if !(authorizeRole [.COMPANY] user) then (.err 403 roleGateError, db)
  else updateReportStatus db user rid body

/-! ### Server route mounting (src/server.js)

server.js registers a GET /api welcome handler and mounts the auth router
at /api/auth and the program router at /api/programs. The reports router
exists in src/routes/reports.js but no app.use mounts it, so every
/api/reports path falls through to the framework default 404. -/

inductive Method
  | GET
  | POST
  | PUT
  | PATCH
  | DELETE
deriving DecidableEq, Repr

/-- The routes of src/routes/auth.js, relative to the mount point. -/
def authRouterRoutes (m : Method) (segs : List String) : Bool :=
  match m, segs with
  | .POST, ["register"] => true
  | .POST, ["login"] => true
  | .GET, ["me"] => true
  | _, _ => false

/-- The routes of src/routes/programs.js, relative to the mount point. -/
def programRouterRoutes (m : Method) (segs : List String) : Bool :=
  match m, segs with
  | .GET, [] => true
  | .GET, [_] => true
  | .POST, [] => true
  | .PUT, [_] => true
  | .DELETE, [_] => true
  | _, _ => false

/-- The routes of src/routes/reports.js, relative to the mount point.
This router is defined in the repository but never mounted. -/
def reportsRouterRoutes (m : Method) (segs : List String) : Bool :=
  match m, segs with
  | .POST, [] => true
  | .GET, ["program", _] => true
  | .GET, [_] => true
  | .PATCH, [_, "status"] => true
  | _, _ => false

/-- The full served surface per src/server.js: GET /api, the auth router
under /api/auth, the program router under /api/programs, nothing else. -/
def serverRoutes (m : Method) (segs : List String) : Bool :=
  match segs with
  | ["api"] => m == .GET
  | "api" :: "auth" :: rest => authRouterRoutes m rest
  | "api" :: "programs" :: rest => programRouterRoutes m rest
  | _ => false

/-- The framework fallback: a request matching no registered route gets
the default 404 response; a matched route is handled by its handler. -/
def serverFallbackStatus (m : Method) (segs : List String) : Option Nat :=
  if serverRoutes m segs then none else some 404

/-! ### Rate limiter configurations (src/middleware/rateLimiter.js) -/

structure RateLimiter where
  windowMs : Nat
  maxHits : Nat
  message : String
  skipSuccessfulRequests : Bool
deriving DecidableEq, Repr

def authLimiter : RateLimiter :=
  { windowMs := 15 * 60 * 1000, maxHits := 5,
    message := "Too many authentication attempts from this IP, please try again later.",
    skipSuccessfulRequests := true }

inductive Admission
  | allowed
  | limited (status : Nat) (error : String)
deriving DecidableEq, Repr

/-- One express-rate-limit step within a window: the per-IP hit counter
is incremented, the request is rejected with 429 when the counter
exceeds the cap, and with skipSuccessfulRequests a handled request whose
response succeeds decrements the counter back. -/
def rateLimitStep (cfg : RateLimiter) (hits : Nat) (requestSucceeds : Bool) :
    Nat × Admission :=
  let h := hits + 1
  if cfg.maxHits < h then (h, .limited 429 cfg.message)
  else if cfg.skipSuccessfulRequests && requestSucceeds then (h - 1, .allowed)
  else (h, .allowed)

/-- Runs a sequence of requests (each tagged with whether its handler
would succeed) through one rate-limit window, returning the final hit
counter and the per-request admission decisions. -/
def runLimiter (cfg : RateLimiter) : Nat → List Bool → Nat × List Admission
  | hits, [] => (hits, [])
  | hits, r :: rs =>
    let step := rateLimitStep cfg hits r
    let rest := runLimiter cfg step.1 rs
    (rest.1, step.2 :: rest.2)

/-- Counts the requests in a window trace that are admitted (not 429)
and whose handler fails, starting from a given hit counter. -/
def allowedFailureCount (cfg : RateLimiter) (hits : Nat) : List Bool → Nat
  | [] => 0
  | r :: rs =>
    let step := rateLimitStep cfg hits r
    (if step.2 = .allowed ∧ r = false then 1 else 0) + allowedFailureCount cfg step.1 rs

/-- Whether a character list begins with a given pattern. -/
def charsStartWith : List Char → List Char → Bool
  | _, [] => true
  | [], _ :: _ => false
  | c :: cs, p :: ps => c = p && charsStartWith cs ps

/-- Whether a pattern occurs somewhere in a character list. -/
def charsContain (pat : List Char) : List Char → Bool
  | [] => charsStartWith [] pat
  | c :: cs => charsStartWith (c :: cs) pat || charsContain pat cs

/-- Substring test: the pattern occurs somewhere in the string. -/
def strContains (s pat : String) : Bool :=
  charsContain pat.data s.data

/-! ### Concrete fixtures, mirroring the seed data of the repository -/

def companyUser : User :=
  { id := 1, email := "company@example.com", name := "Company User",
    passwordHash := "hashC", role := .COMPANY }

def researcherUser : User :=
  { id := 2, email := "researcher@example.com", name := "Researcher User",
    passwordHash := "hashR", role := .RESEARCHER }

def adminUser : User :=
  { id := 3, email := "admin@example.com", name := "Admin User",
    passwordHash := "hashA", role := .ADMIN }

def sampleProgram : Program :=
  { id := 10, name := "Sample Bug Bounty Program",
    description := "Find and report bugs in our system.",
    scope := "api.example.com", rewardMin := 100, rewardMax := 1000,
    companyId := 1 }

def sampleReport : Report :=
  { id := 20, title := "Sample Bug Report",
    description := "This is a sample bug report.", severity := .HIGH,
    status := .OPEN, programId := 10, researcherId := 2 }

def sampleDB : DB :=
  { users := [companyUser, researcherUser, adminUser],
    programs := [sampleProgram], reports := [sampleReport], nextId := 30 }

/-- A concrete token verifier: one token for the company user and one
whose id claim matches no stored user. -/
def sampleVerify : String → Option TokenClaims :=
  fun t =>
    if t == "tok-company" then some { id := 1, email := "company@example.com" }
    else if t == "tok-ghost" then some { id := 99, email := "ghost@example.com" }
    else none

/-- The serialized user object of a register or login response body. -/
def authUserFields : HResp AuthSuccess → List (String × String)
  | .ok _ b => b.user
  | .err _ _ => []

/-- The serialized user object of a me response body. -/
def meUserFields : HResp (List (String × String)) → List (String × String)
  | .ok _ b => b
  | .err _ _ => []

end BugBounty

namespace BugBounty

/-! ## Claim theorems -/

/-- C1: the spec requires the report endpoints to be part of the served
HTTP surface, with PATCH /reports/:id/status returning 200 for the owning
company and 403 for the researcher. The code defines the reports router
but src/server.js never mounts it, so every PATCH /api/reports/:id/status
request falls through to the framework default 404 — it can never return
200 or 403. This contradicts the README route list and the integration
tests of the repository. -/
theorem c1_report_routes_unmounted :
    ∀ rid : String,
      serverRoutes .PATCH ["api", "reports", rid, "status"] = false ∧
      serverFallbackStatus .PATCH ["api", "reports", rid, "status"] = some 404 ∧
      reportsRouterRoutes .PATCH [rid, "status"] = true := by
  intro rid
  refine ⟨rfl, ?_, rfl⟩
  simp [serverFallbackStatus, serverRoutes]

/-- C2 counterexample: the claim asserts that a missing program id yields
404 for every authenticated actor. For a RESEARCHER actor and a program
id that does not resolve, the route-level role gate answers 403, not
404. -/
theorem c2_counterexample :
    sampleDB.findProgram 99 = none ∧
    (routePutProgram sampleDB researcherUser 99 {}).1.statusCode = 403 ∧
    ¬ (routePutProgram sampleDB researcherUser 99 {}).1.statusCode = 404 ∧
    (routeDeleteProgram sampleDB researcherUser 99).1.statusCode = 403 ∧
    ¬ (routeDeleteProgram sampleDB researcherUser 99).1.statusCode = 404 := by
  decide

/-- C2 (amended): a PUT or DELETE on a program succeeds only for the
actor whose id equals companyId. Among COMPANY-role actors, a missing id
yields 404 and an owner mismatch yields 403, with 404 taking precedence;
an authenticated actor of any other role receives 403 from the role gate
regardless of whether the program exists. -/
theorem c2_program_mutation_authorization :
    ∀ (db : DB) (u : User) (pid : Nat) (body : ProgramBody),
      (u.role = .COMPANY →
        (db.findProgram pid = none →
          routePutProgram db u pid body = (.err 404 "Program not found", db) ∧
          routeDeleteProgram db u pid = (.err 404 "Program not found", db)) ∧
        (∀ p : Program, db.findProgram pid = some p → ¬ p.companyId = u.id →
          routePutProgram db u pid body =
            (.err 403 "You are not authorized to update this program", db) ∧
          routeDeleteProgram db u pid =
            (.err 403 "You are not authorized to delete this program", db)) ∧
        (∀ p : Program, db.findProgram pid = some p → p.companyId = u.id →
          (routePutProgram db u pid body).1 = .ok 200 (Program.applyBody body p) ∧
          (routeDeleteProgram db u pid).1 = .ok 204 ())) ∧
      (¬ u.role = .COMPANY →
        routePutProgram db u pid body = (.err 403 roleGateError, db) ∧
        routeDeleteProgram db u pid = (.err 403 roleGateError, db)) := by
  intro db u pid body
  constructor
  · intro hrole
    have hgate : authorizeRole [.COMPANY] u = true := by
      simp [authorizeRole, hrole]
    refine ⟨?_, ?_, ?_⟩
    · intro hnone
      simp [routePutProgram, routeDeleteProgram, hgate, updateProgram,
        deleteProgram, hnone]
    · intro p hp hown
      simp [routePutProgram, routeDeleteProgram, hgate, updateProgram,
        deleteProgram, hp, hown]
    · intro p hp hown
      simp [routePutProgram, routeDeleteProgram, hgate, updateProgram,
        deleteProgram, hp, hown]
  · intro hrole
    have hgate : authorizeRole [.COMPANY] u = false := by
      simp [authorizeRole, hrole]
    simp [routePutProgram, routeDeleteProgram, hgate]

/-- C2 witness: the amended theorem applied to the owning company, a
foreign company, and a researcher on the concrete sample store. -/
theorem c2_witness :
    (routePutProgram sampleDB companyUser 10 {}).1 =
      .ok 200 (Program.applyBody {} sampleProgram) ∧
    (routeDeleteProgram sampleDB companyUser 10).1 = .ok 204 () ∧
    routePutProgram sampleDB researcherUser 10 {} = (.err 403 roleGateError, sampleDB) := by
  have hc := c2_program_mutation_authorization sampleDB companyUser 10 {}
  have hr := c2_program_mutation_authorization sampleDB researcherUser 10 {}
  have hown := (hc.1 rfl).2.2 sampleProgram (by decide) (by decide)
  exact ⟨hown.1, hown.2, (hr.2 (by decide)).1⟩

/-- C3 counterexample: the claim asserts that every authenticated actor
whose role is not COMPANY is never rejected with 403 when listing the
reports of an existing program. An ADMIN actor is rejected with 403 by
the route-level role gate, which only admits COMPANY and RESEARCHER. -/
theorem c3_counterexample :
    sampleDB.findProgram 10 = some sampleProgram ∧
    ¬ adminUser.role = Role.COMPANY ∧
    routeGetReportsForProgram sampleDB adminUser 10 = .err 403 roleGateError := by
  decide

/-- C3 (amended): a RESEARCHER actor listing the reports of an existing
program is never rejected: the answer is exactly the reports of that
program whose researcherId equals the actor id, even when other
researchers have reports on the same program. A non-COMPANY actor whose
role is not RESEARCHER (ADMIN) is rejected with 403 by the role gate. -/
theorem c3_researcher_report_listing :
    ∀ (db : DB) (u : User) (pid : Nat) (p : Program),
      (u.role = .RESEARCHER → db.findProgram pid = some p →
        routeGetReportsForProgram db u pid =
          .ok 200 (db.reports.filter
            (fun r => r.programId == pid && r.researcherId == u.id)) ∧
        ∀ r : Report,
          r ∈ db.reports.filter (fun r => r.programId == pid && r.researcherId == u.id) ↔
          (r ∈ db.reports ∧ r.programId = pid ∧ r.researcherId = u.id)) ∧
      (u.role = .ADMIN →
        routeGetReportsForProgram db u pid = .err 403 roleGateError) := by
  intro db u pid p
  constructor
  · intro hrole hp
    constructor
    · simp [routeGetReportsForProgram, authorizeRole, hrole,
        getReportsForProgram, hp]
    · intro r
      simp [List.mem_filter, and_assoc]
  · intro hrole
    simp [routeGetReportsForProgram, authorizeRole, hrole, roleGateError]

/-- C3 witness: the amended theorem applied to the concrete sample
store: the researcher sees exactly the sample report, the admin is
rejected. -/
theorem c3_witness :
    routeGetReportsForProgram sampleDB researcherUser 10 = .ok 200 [sampleReport] ∧
    routeGetReportsForProgram sampleDB adminUser 10 = .err 403 roleGateError := by
  have h := c3_researcher_report_listing sampleDB researcherUser 10 sampleProgram
  have ha := c3_researcher_report_listing sampleDB adminUser 10 sampleProgram
  constructor
  · have h1 := (h.1 rfl (by decide)).1
    rw [h1]
    decide
  · exact ha.2 rfl

/-- C4: authentication resolves identity in three steps with fixed 401
outcomes: a missing (or falsy) bearer token fails with the no-token
message, a token failing verification fails with the invalid-token
message, a verified token whose id claim matches no stored actor fails
with the user-not-found message, and otherwise the full actor record is
attached. -/
theorem c4_authenticate_three_steps :
    ∀ (verify : String → Option TokenClaims) (db : DB) (hdr : Option String),
      ((bearerToken hdr = none ∨ bearerToken hdr = some "") →
        authenticate verify db hdr = .failed 401 "No token provided, authorization denied") ∧
      (∀ t : String, bearerToken hdr = some t → ¬ t = "" → verify t = none →
        authenticate verify db hdr = .failed 401 "Invalid token") ∧
      (∀ (t : String) (c : TokenClaims), bearerToken hdr = some t → ¬ t = "" →
        verify t = some c → db.findUserById c.id = none →
        authenticate verify db hdr = .failed 401 "User not found") ∧
      (∀ (t : String) (c : TokenClaims) (u : User), bearerToken hdr = some t →
        ¬ t = "" → verify t = some c → db.findUserById c.id = some u →
        authenticate verify db hdr = .ok u) := by
  intro verify db hdr
  refine ⟨?_, ?_, ?_, ?_⟩
  · rintro (h | h) <;> simp [authenticate, h]
  · intro t ht hne hv
    simp [authenticate, ht, hne, hv]
  · intro t c ht hne hv hu
    simp [authenticate, ht, hne, hv, hu]
  · intro t c u ht hne hv hu
    simp [authenticate, ht, hne, hv, hu]

/-- C4 witness: the three failure modes and the success mode of
authenticate on the concrete verifier and sample store. -/
theorem c4_witness :
    authenticate sampleVerify sampleDB none =
      .failed 401 "No token provided, authorization denied" ∧
    authenticate sampleVerify sampleDB (some "Bearer nonsense") =
      .failed 401 "Invalid token" ∧
    authenticate sampleVerify sampleDB (some "Bearer tok-ghost") =
      .failed 401 "User not found" ∧
    authenticate sampleVerify sampleDB (some "Bearer tok-company") = .ok companyUser := by
  refine ⟨?_, ?_, ?_, ?_⟩
  · exact (c4_authenticate_three_steps sampleVerify sampleDB none).1 (Or.inl rfl)
  · exact (c4_authenticate_three_steps sampleVerify sampleDB
      (some "Bearer nonsense")).2.1 "nonsense" rfl (by decide) (by decide)
  · exact (c4_authenticate_three_steps sampleVerify sampleDB
      (some "Bearer tok-ghost")).2.2.1 "tok-ghost" { id := 99, email := "ghost@example.com" }
      rfl (by decide) (by decide) (by decide)
  · exact (c4_authenticate_three_steps sampleVerify sampleDB
      (some "Bearer tok-company")).2.2.2 "tok-company"
      { id := 1, email := "company@example.com" } companyUser
      rfl (by decide) (by decide) (by decide)

/-- C5: a report status update by the authorized owning company answers
400 with the both-absent message and leaves the store unchanged when
neither status nor severity is supplied; otherwise only the supplied
fields among status and severity change and every omitted field keeps
its prior value. -/
theorem c5_update_report_partial_semantics :
    ∀ (db : DB) (u : User) (rid : Nat) (body : StatusBody) (r : Report) (p : Program),
      u.role = .COMPANY → db.findReport rid = some r →
      db.findProgram r.programId = some p → p.companyId = u.id →
      (body.status = none ∧ body.severity = none →
        routePatchReportStatus db u rid body =
          (.err 400 "Status or severity must be provided", db)) ∧
      (¬ (body.status = none ∧ body.severity = none) →
        (routePatchReportStatus db u rid body).1 =
          .ok 200 { r with status := body.status.getD r.status,
                           severity := body.severity.getD r.severity }) := by
  intro db u rid body r p hrole hr hp hown
  have hgate : authorizeRole [.COMPANY] u = true := by
    simp [authorizeRole, hrole]
  constructor
  · intro hempty
    simp [routePatchReportStatus, hgate, updateReportStatus, hempty]
  · intro hsome
    simp [routePatchReportStatus, hgate, updateReportStatus, hsome, hr, hp,
      hown, Report.applyStatusBody]

/-- C5 witness: the claim theorem applied on the sample store to the
empty body and to a status-only body. -/
theorem c5_witness :
    routePatchReportStatus sampleDB companyUser 20 {} =
      (.err 400 "Status or severity must be provided", sampleDB) ∧
    (routePatchReportStatus sampleDB companyUser 20 { status := some .IN_REVIEW }).1 =
      .ok 200 { sampleReport with status := .IN_REVIEW } := by
  constructor
  · exact (c5_update_report_partial_semantics sampleDB companyUser 20 {}
      sampleReport sampleProgram rfl (by decide) (by decide) (by decide)).1
      ⟨rfl, rfl⟩
  · have h := (c5_update_report_partial_semantics sampleDB companyUser 20
      { status := some .IN_REVIEW } sampleReport sampleProgram rfl (by decide)
      (by decide) (by decide)).2 (by simp)
    simpa using h

/-- Helper: starting a window with a given hit counter, the number of
admitted failing requests is bounded by the remaining quota. -/
theorem allowedFailureCount_le (cfg : RateLimiter) :
    ∀ (reqs : List Bool) (hits : Nat),
      allowedFailureCount cfg hits reqs ≤ cfg.maxHits - hits := by
  intro reqs
  induction reqs with
  | nil => intro hits; simp [allowedFailureCount]
  | cons r rs ih =>
    intro hits
    have h1 := ih (hits + 1)
    have h2 := ih hits
    unfold allowedFailureCount rateLimitStep
    by_cases hlt : cfg.maxHits < hits + 1
    · simp [hlt]
      omega
    · simp only [hlt, if_false]
      cases r <;> cases hsk : cfg.skipSuccessfulRequests <;> simp [hsk] <;> omega

/-- C6: the authentication limiter window admits at most 5 failing
requests; six consecutive failures see the first five admitted and the
sixth rejected with 429 and a message containing the required text; a
successful login in between does not consume quota, so five failures
around one success are all admitted and only a further sixth failure is
rejected. -/
theorem c6_auth_rate_limit :
    (∀ reqs : List Bool, allowedFailureCount authLimiter 0 reqs ≤ 5) ∧
    (runLimiter authLimiter 0 [false, false, false, false, false, false]).2 =
      [.allowed, .allowed, .allowed, .allowed, .allowed,
       .limited 429 authLimiter.message] ∧
    strContains authLimiter.message "Too many authentication attempts" = true ∧
    (runLimiter authLimiter 0 [false, false, true, false, false, false]).2 =
      [.allowed, .allowed, .allowed, .allowed, .allowed, .allowed] ∧
    (runLimiter authLimiter 0 [false, false, true, false, false, false, false]).2 =
      [.allowed, .allowed, .allowed, .allowed, .allowed, .allowed,
       .limited 429 authLimiter.message] := by
  refine ⟨?_, by decide, by decide, by decide, by decide⟩
  intro reqs
  simpa using allowedFailureCount_le authLimiter reqs 0

/-- Helper: searching a list extended by one element, when the predicate
fails on every element of the front list, finds the new element iff the
predicate accepts it. -/
theorem find?_append_singleton {α : Type} (p : α → Bool) (l : List α) (a : α)
    (h : ∀ x ∈ l, p x = false) :
    List.find? p (l ++ [a]) = if p a then some a else none := by
  induction l with
  | nil =>
    simp only [List.nil_append, List.find?]
    cases hp : p a <;> simp [hp]
  | cons x xs ih =>
    have hx : p x = false := h x (by simp)
    simp only [List.cons_append, List.find?, hx]
    exact ih (fun y hy => h y (by simp [hy]))

/-- Helper: the keys that survive the passwordHash omission are exactly
id, email, name and role. -/
theorem omitPasswordHash_keys (u : User) :
    (omitPasswordHash u.fields).map Prod.fst = ["id", "email", "name", "role"] := by
  rfl

/-- C7: a valid registration returns a user object without the password
hash field, the same holds for login and for the me endpoint, and a
subsequent login with the registration email and password succeeds,
round-tripping through hashing and verification (the hasher contract is
the hypothesis that comparing a password against its hash succeeds). -/
theorem c7_register_login_roundtrip :
    ∀ (hash : String → String) (sign : User → String)
      (compare : String → String → Bool) (db : DB) (body : RegisterBody)
      (nm email pw : String),
      body.name = some nm → body.email = some email → body.password = some pw →
      ¬ nm = "" → ¬ email = "" → ¬ pw = "" →
      (∀ u ∈ db.users, ¬ u.email = email) →
      compare pw (hash pw) = true →
      (register hash sign db body).1.statusCode = 201 ∧
      ¬ "passwordHash" ∈ (authUserFields (register hash sign db body).1).map Prod.fst ∧
      (login compare sign (register hash sign db body).2
        (some email) (some pw)).statusCode = 200 ∧
      ¬ "passwordHash" ∈ (authUserFields (login compare sign
        (register hash sign db body).2 (some email) (some pw))).map Prod.fst ∧
      (∀ u : User, ¬ "passwordHash" ∈ (meUserFields (me u)).map Prod.fst) := by
  intro hash sign compare db body nm email pw hbn hbe hbp hnm hemail hpw hfresh hcmp
  have hany : (db.users.any (fun u => u.email == email)) = false := by
    rw [Bool.eq_false_iff]
    intro hc
    obtain ⟨u, hu, heq⟩ := List.any_eq_true.mp hc
    exact hfresh u hu (by simpa using heq)
  have hreg : register hash sign db body =
      (HResp.ok 201
        ⟨sign ⟨db.nextId, email, nm, hash pw, body.role.getD .RESEARCHER⟩,
         omitPasswordHash
           (User.fields ⟨db.nextId, email, nm, hash pw, body.role.getD .RESEARCHER⟩)⟩,
       ⟨db.users ++ [⟨db.nextId, email, nm, hash pw, body.role.getD .RESEARCHER⟩],
        db.programs, db.reports, db.nextId + 1⟩) := by
    simp [register, hbn, hbe, hbp, truthyStr, hnm, hemail, hpw, hany]
  have hfind : DB.findUserByEmail (register hash sign db body).2 email =
      some ⟨db.nextId, email, nm, hash pw, body.role.getD .RESEARCHER⟩ := by
    rw [hreg]
    show List.find? _ (db.users ++ [_]) = _
    rw [find?_append_singleton _ db.users _
      (fun y hy => by simpa using hfresh y hy)]
    simp
  have hlogin : login compare sign (register hash sign db body).2
      (some email) (some pw) =
      HResp.ok 200
        ⟨sign ⟨db.nextId, email, nm, hash pw, body.role.getD .RESEARCHER⟩,
         omitPasswordHash
           (User.fields ⟨db.nextId, email, nm, hash pw, body.role.getD .RESEARCHER⟩)⟩ := by
    simp [login, truthyStr, hemail, hpw, hfind, hcmp]
  refine ⟨by rw [hreg]; rfl, ?_, by rw [hlogin]; rfl, ?_, ?_⟩
  · rw [hreg]
    show ¬ "passwordHash" ∈ (omitPasswordHash (User.fields _)).map Prod.fst
    rw [omitPasswordHash_keys]
    decide
  · rw [hlogin]
    show ¬ "passwordHash" ∈ (omitPasswordHash (User.fields _)).map Prod.fst
    rw [omitPasswordHash_keys]
    decide
  · intro u
    show ¬ "passwordHash" ∈ (omitPasswordHash (User.fields u)).map Prod.fst
    rw [omitPasswordHash_keys]
    decide

/-- C7 witness: the round trip on a concrete hasher, signer, store and
registration body. -/
theorem c7_witness :
    (register (fun s => String.append s "#h") (fun u => u.email) sampleDB
      { name := some "New User", email := some "new@example.com",
        password := some "Password123" }).1.statusCode = 201 ∧
    (login (fun pw h => h == String.append pw "#h") (fun u => u.email)
      (register (fun s => String.append s "#h") (fun u => u.email) sampleDB
        { name := some "New User", email := some "new@example.com",
          password := some "Password123" }).2
      (some "new@example.com") (some "Password123")).statusCode = 200 := by
  have h := c7_register_login_roundtrip (fun s => String.append s "#h")
    (fun u => u.email) (fun pw h => h == String.append pw "#h") sampleDB
    { name := some "New User", email := some "new@example.com",
      password := some "Password123" }
    "New User" "new@example.com" "Password123"
    rfl rfl rfl (by decide) (by decide) (by decide) (by decide) (by decide)
  exact ⟨h.1, h.2.2.1⟩

/-- C8: a registration with required fields present and an already-used
email answers 409 regardless of the other field values; with a fresh
email it answers 201, not 409. -/
theorem c8_duplicate_email_conflict :
    ∀ (hash : String → String) (sign : User → String) (db : DB)
      (body : RegisterBody) (nm email pw : String),
      body.name = some nm → body.email = some email → body.password = some pw →
      ¬ nm = "" → ¬ email = "" → ¬ pw = "" →
      ((∃ u, u ∈ db.users ∧ u.email = email) →
        register hash sign db body =
          (.err 409 "A user with this email already exists", db)) ∧
      ((∀ u ∈ db.users, ¬ u.email = email) →
        (register hash sign db body).1.statusCode = 201) := by
  intro hash sign db body nm email pw hbn hbe hbp hnm hemail hpw
  constructor
  · rintro ⟨u, hu, hueq⟩
    have hany : (db.users.any (fun u => u.email == email)) = true :=
      List.any_eq_true.mpr ⟨u, hu, by simpa using hueq⟩
    simp [register, hbn, hbe, hbp, truthyStr, hnm, hemail, hpw, hany]
  · intro hfresh
    have hany : (db.users.any (fun u => u.email == email)) = false := by
      rw [Bool.eq_false_iff]
      intro hc
      obtain ⟨u, hu, heq⟩ := List.any_eq_true.mp hc
      exact hfresh u hu (by simpa using heq)
    simp [register, hbn, hbe, hbp, truthyStr, hnm, hemail, hpw, hany,
      HResp.statusCode]

/-- C8 witness: registering the already-present company email answers
409 and leaves the store unchanged; a fresh email answers 201. -/
theorem c8_witness :
    register (fun s => s) (fun u => u.email) sampleDB
      { name := some "Other Name", email := some "company@example.com",
        password := some "otherpw" } =
      (.err 409 "A user with this email already exists", sampleDB) ∧
    (register (fun s => s) (fun u => u.email) sampleDB
      { name := some "Other Name", email := some "fresh@example.com",
        password := some "otherpw" }).1.statusCode = 201 := by
  have hdup := c8_duplicate_email_conflict (fun s => s) (fun u => u.email)
    sampleDB { name := some "Other Name", email := some "company@example.com",
               password := some "otherpw" }
    "Other Name" "company@example.com" "otherpw"
    rfl rfl rfl (by decide) (by decide) (by decide)
  have hfr := c8_duplicate_email_conflict (fun s => s) (fun u => u.email)
    sampleDB { name := some "Other Name", email := some "fresh@example.com",
               password := some "otherpw" }
    "Other Name" "fresh@example.com" "otherpw"
    rfl rfl rfl (by decide) (by decide) (by decide)
  exact ⟨hdup.1 ⟨companyUser, by decide, rfl⟩, hfr.2 (by decide)⟩

/-- Helper: mapping a conditional row rewrite over a table preserves any
projection the rewrite preserves. -/
theorem map_update_preserves_proj {α β : Type} (f : α → α) (proj : α → β)
    (cond : α → Bool) (hf : ∀ a, proj (f a) = proj a) (l : List α) :
    (l.map (fun a => if cond a then f a else a)).map proj = l.map proj := by
  rw [List.map_map]
  apply List.map_congr_left
  intro a _
  by_cases h : cond a = true
  · simp [h, hf]
  · simp [h]

/-- C9: the program update and delete operations never change any
program id or companyId pair of the surviving rows and touch no other
table; the report status update changes nothing but status and severity
(id, researcherId, programId, title and description of every report are
preserved) and touches no other table; delete only removes rows (the
surviving programs and reports are unchanged, as a sublist). -/
theorem c9_owner_and_reference_immutability :
    ∀ (db : DB) (u : User) (pid rid : Nat) (body : ProgramBody) (sbody : StatusBody),
      (updateProgram db u pid body).2.users = db.users ∧
      (updateProgram db u pid body).2.reports = db.reports ∧
      (updateProgram db u pid body).2.programs.map (fun p => (p.id, p.companyId)) =
        db.programs.map (fun p => (p.id, p.companyId)) ∧
      (deleteProgram db u pid).2.users = db.users ∧
      (deleteProgram db u pid).2.programs.Sublist db.programs ∧
      (deleteProgram db u pid).2.reports.Sublist db.reports ∧
      (updateReportStatus db u rid sbody).2.users = db.users ∧
      (updateReportStatus db u rid sbody).2.programs = db.programs ∧
      (updateReportStatus db u rid sbody).2.reports.map
          (fun r => (r.id, r.researcherId, r.programId, r.title, r.description)) =
        db.reports.map (fun r => (r.id, r.researcherId, r.programId, r.title, r.description)) := by
  intro db u pid rid body sbody
  have hup : (updateProgram db u pid body).2.users = db.users ∧
      (updateProgram db u pid body).2.reports = db.reports ∧
      (updateProgram db u pid body).2.programs.map (fun p => (p.id, p.companyId)) =
        db.programs.map (fun p => (p.id, p.companyId)) := by
    cases h : db.findProgram pid with
    | none => simp [updateProgram, h]
    | some p =>
      cases hb : (p.companyId != u.id) with
      | true => simp [updateProgram, h, hb]
      | false =>
        refine ⟨by simp [updateProgram, h, hb], by simp [updateProgram, h, hb], ?_⟩
        simp only [updateProgram, h, hb, Bool.false_eq_true, if_false]
        rw [List.map_map]
        apply List.map_congr_left
        intro a _
        by_cases hid : (a.id == pid) = true <;>
          simp [hid, Program.applyBody, Function.comp]
  have hdel : (deleteProgram db u pid).2.users = db.users ∧
      (deleteProgram db u pid).2.programs.Sublist db.programs ∧
      (deleteProgram db u pid).2.reports.Sublist db.reports := by
    cases h : db.findProgram pid with
    | none => simp [deleteProgram, h, List.Sublist.refl]
    | some p =>
      cases hb : (p.companyId != u.id) with
      | true => simp [deleteProgram, h, hb, List.Sublist.refl]
      | false =>
        refine ⟨by simp [deleteProgram, h, hb], ?_, ?_⟩ <;>
          simp only [deleteProgram, h, hb, Bool.false_eq_true, if_false]
        · exact List.filter_sublist _
        · exact List.filter_sublist _
  have hrep : (updateReportStatus db u rid sbody).2.users = db.users ∧
      (updateReportStatus db u rid sbody).2.programs = db.programs ∧
      (updateReportStatus db u rid sbody).2.reports.map
          (fun r => (r.id, r.researcherId, r.programId, r.title, r.description)) =
        db.reports.map (fun r => (r.id, r.researcherId, r.programId, r.title, r.description)) := by
    by_cases hempty : sbody.status = none ∧ sbody.severity = none
    · simp [updateReportStatus, hempty]
    · cases h : db.findReport rid with
      | none => simp [updateReportStatus, hempty, h]
      | some r =>
        cases hq : db.findProgram r.programId with
        | none => simp [updateReportStatus, hempty, h, hq]
        | some p =>
          cases hb : (p.companyId != u.id) with
          | true => simp [updateReportStatus, hempty, h, hq, hb]
          | false =>
            refine ⟨by simp [updateReportStatus, hempty, h, hq, hb],
              by simp [updateReportStatus, hempty, h, hq, hb], ?_⟩
            simp only [updateReportStatus, hempty, h, hq, hb, Bool.false_eq_true,
              if_false]
            rw [List.map_map]
            apply List.map_congr_left
            intro a _
            by_cases hid : (a.id == rid) = true <;>
              simp [hid, Report.applyStatusBody, Function.comp]
  exact ⟨hup.1, hup.2.1, hup.2.2, hdel.1, hdel.2.1, hdel.2.2,
    hrep.1, hrep.2.1, hrep.2.2⟩

/-- C10: program creation validates required fields by truthiness: a
request with rewardMin or rewardMax equal to 0 or any field equal to the
empty string answers 400 with the all-fields message and creates
nothing, and a body carrying rewardMin 0 is indistinguishable from one
with rewardMin absent. -/
theorem c10_create_program_truthiness :
    ∀ (db : DB) (u : User) (body : ProgramBody),
      (body.rewardMin = some 0 ∨ body.rewardMax = some 0 ∨
       body.name = some "" ∨ body.description = some "" ∨ body.scope = some "" →
        createProgram db u body = (.err 400 "All fields are required", db)) ∧
      createProgram db u { body with rewardMin := some 0 } =
        createProgram db u { body with rewardMin := none } := by
  intro db u body
  constructor
  · rintro (h | h | h | h | h) <;> simp [createProgram, h, truthyStr, truthyInt]
  · simp [createProgram, truthyStr, truthyInt]

/-- C10 witness: a creation request by a company with all fields present
but rewardMin 0 is rejected with 400, like the same request with
rewardMin missing. -/
theorem c10_witness :
    createProgram sampleDB companyUser
      { name := some "New Program", description := some "desc",
        scope := some "api.example.com", rewardMin := some 0,
        rewardMax := some 1000 } =
      (.err 400 "All fields are required", sampleDB) ∧
    createProgram sampleDB companyUser
      { name := some "New Program", description := some "desc",
        scope := some "api.example.com", rewardMin := some 0,
        rewardMax := some 1000 } =
      createProgram sampleDB companyUser
        { name := some "New Program", description := some "desc",
          scope := some "api.example.com", rewardMin := none,
          rewardMax := some 1000 } := by
  have h := c10_create_program_truthiness sampleDB companyUser
    { name := some "New Program", description := some "desc",
      scope := some "api.example.com", rewardMin := some 0,
      rewardMax := some 1000 }
  have h2 := c10_create_program_truthiness sampleDB companyUser
    { name := some "New Program", description := some "desc",
      scope := some "api.example.com", rewardMin := some 1,
      rewardMax := some 1000 }
  exact ⟨h.1 (Or.inl rfl), h2.2⟩

end BugBounty
